import Mathlib

/-!
# fe-ota — verification of the client-side project/version state container

A shallow embedding of the repository's domain state container
(`ProjectsProvider` in `src/contexts/ProjectsContext.tsx`), the
generative-text wrapper (`src/services/geminiService.ts`), and the
environment-toggle handler of `src/pages/ProjectDetailsPage.tsx`.

Each container operation performs exactly one HTTP round trip and then
reconciles the in-memory cache; we model an operation as a pure function of
the pre-state and of the outcome of that single round trip, returning the
post-state together with the operation's return value. JavaScript
truthiness on strings (`x || fallback`) is modelled explicitly.
-/

namespace OTA

/-- Target OS family (`Platform` in `src/types`). -/
inductive Platform where
  | Android
  | iOS
deriving DecidableEq

/-- Promotion stage a version can be marked active for
(`DeploymentEnvironment` in `src/types`). -/
inductive DeploymentEnvironment where
  | Development
  | Staging
  | Production
deriving DecidableEq

/-- One uploaded build artifact (`AppVersion` in `src/types`).
The source stores `uploadDate` as a date string and compares dates through
`new Date(s).getTime()`; we model the field directly as that epoch value. -/
structure AppVersion where
  _id : String
  platform : Platform
  versionName : String
  buildNumber : String
  fileName : String
  fileSize : String
  uploadDate : Nat
  releaseNotes : Option String
  downloadUrl : String
  qrCodeValue : String
  filePath : String
  activeEnvironments : List DeploymentEnvironment
deriving DecidableEq

/-- A logical application whose builds are distributed (`Project` in
`src/types`). `createdAt` is modelled as an epoch value like `uploadDate`. -/
structure Project where
  _id : String
  name : String
  description : Option String
  createdAt : Nat
  platforms : List Platform
  versions : List AppVersion
deriving DecidableEq

/-- The process-wide state held by `ProjectsProvider`:
`projects`, `loading`, `error`. -/
structure ContainerState where
  projects : List Project
  loading : Bool
  error : Option String
deriving DecidableEq

/-- JavaScript `a || b` for a string `a`: the empty string is falsy. -/
def jsOr (a b : String) : String :=
  if a = "" then b else a

/-- JavaScript `a.message || b` where `message` may be absent:
`undefined`, `null` and `""` all fall through to `b`. -/
def jsOrOpt (a : Option String) (b : String) : String :=
  match a with
  | none => b
  | some s => jsOr s b

/-- The parsed JSON body of a backend response, as the container reads it:
a `data` field (absent or `null` modelled as `none`) and an optional
`message` field used by error envelopes. -/
structure ApiBody (α : Type) where
  data : Option α
  message : Option String

/-- A settled `fetch` response: the `ok` flag, the numeric status, and the
result of `response.json()` (which may itself reject — a decode failure). -/
structure HttpResponse (α : Type) where
  ok : Bool
  status : Nat
  json : Except String (ApiBody α)

/-- The outcome of one `fetch` call: the transport layer may reject
(`Except.error`, carrying the rejection's message) or deliver a response. -/
def FetchOutcome (α : Type) : Type := Except String (HttpResponse α)

/-- Function `handleApiResponse` (src/unnamed/part_002, lines 62–68): parse the
body first (a decode failure propagates), then throw on a non-2xx status
with the body's `message` when present (JS-truthy), else the generic
`HTTP error! status: N`; on `ok` return the parsed body. -/
def handleApiResponse (response : HttpResponse α) : Except String (ApiBody α) :=
  match response.json with
  | Except.error m => Except.error m
  | Except.ok data =>
    if !response.ok then
      Except.error (jsOrOpt data.message ("HTTP error! status: " ++ toString response.status))
    else
      Except.ok data

/-- The `try` block shared by every operation: a `fetch` rejection and a
`handleApiResponse` throw land in the same `catch`. -/
def runFetch (outcome : FetchOutcome α) : Except String (ApiBody α) :=
  match outcome with
  | Except.error m => Except.error m
  | Except.ok response => handleApiResponse response

/-- Operation `fetchProjects` (lines 70–85): on success replace the whole cache with
`apiResponse.data || []`; on any failure set `error` and clear the cache.
`loading` ends `false` (the `finally`), `error` is reset to `null` at entry
and only set again in the `catch`. -/
def fetchProjects (s : ContainerState) (outcome : FetchOutcome (List Project)) :
    ContainerState :=
  match runFetch outcome with
  | Except.ok apiResponse =>
    { s with projects := apiResponse.data.getD [], error := none, loading := false }
  | Except.error m =>
    { s with projects := [],
             error := some (jsOr m "Failed to fetch projects."),
             loading := false }

/-- Operation `getProjectById` (lines 165–170): a pure `find` over the cache. -/
def getProjectById (s : ContainerState) (projectId : String) : Option Project :=
  s.projects.find? (fun p => p._id = projectId)

/-- Operation `addProject` (lines 91–115): on success append `apiResponse.data` to the
cache and return it; on failure set `error` and return `null`. When the
server replies 2xx without a `data` field the source would append the JS
value `undefined` to the cache and return it (falsy); that phantom entry is
not representable in the typed cache, so that branch keeps the cache and
returns the null sentinel — no theorem below depends on it. -/
def addProject (s : ContainerState) (outcome : FetchOutcome Project) :
    ContainerState × Option Project :=
  match runFetch outcome with
  | Except.ok apiResponse =>
    match apiResponse.data with
    | some newProject =>
      ({ s with projects := s.projects ++ [newProject], error := none, loading := false },
       some newProject)
    | none =>
      ({ s with error := none, loading := false }, none)
  | Except.error m =>
    ({ s with error := some (jsOr m "Failed to add project."), loading := false }, none)

/-- Operation `deleteProject` (lines 117–134): the response body is ignored beyond the
success check; on success filter the cache by identity and return `true`. -/
def deleteProject (s : ContainerState) (projectId : String)
    (outcome : FetchOutcome Unit) : ContainerState × Bool :=
  match runFetch outcome with
  | Except.ok _ =>
    ({ s with projects := s.projects.filter (fun p => p._id ≠ projectId),
              error := none, loading := false },
     true)
  | Except.error m =>
    ({ s with error := some (jsOr m "Failed to delete project."), loading := false }, false)

/-- Operation `updateProjectDetails` (lines 136–163): on success replace the matching
cached project wholesale with the server's representation. As in
`addProject`, the 2xx-without-`data` branch (which would store `undefined`)
is collapsed to the null sentinel with the cache kept. -/
def updateProjectDetails (s : ContainerState) (projectId : String)
    (outcome : FetchOutcome Project) : ContainerState × Option Project :=
  match runFetch outcome with
  | Except.ok apiResponse =>
    match apiResponse.data with
    | some updatedProject =>
      ({ s with projects := s.projects.map
                  (fun p => if p._id = projectId then updatedProject else p),
                error := none, loading := false },
       some updatedProject)
    | none =>
      ({ s with error := none, loading := false }, none)
  | Except.error m =>
    ({ s with error := some (jsOr m "Failed to update project."), loading := false }, none)

/-- Descending order on upload timestamps, the order of the comparator
`(a, b) => new Date(b.uploadDate).getTime() - new Date(a.uploadDate).getTime()`. -/
def byUploadDesc (a b : AppVersion) : Prop :=
  b.uploadDate ≤ a.uploadDate

instance : DecidableRel byUploadDesc :=
  fun a b => Nat.decLe b.uploadDate a.uploadDate

instance : IsTotal AppVersion byUploadDesc :=
  ⟨fun a b => Nat.le_total b.uploadDate a.uploadDate⟩

instance : IsTrans AppVersion byUploadDesc :=
  ⟨fun _ _ _ h₁ h₂ => Nat.le_trans h₂ h₁⟩

/-- The `.sort` call of `addAppVersion`: JavaScript `Array.prototype.sort`
is stable and the comparator is consistent, so any stable sort realises it;
we use insertion sort. -/
def sortVersionsDesc (l : List AppVersion) : List AppVersion :=
  List.insertionSort byUploadDesc l

/-- Operation `addAppVersion` (lines 172–230): on success prepend the server-returned
version to the target project's `versions` (`p.versions || []` is the
identity on the typed cache) and re-sort descending by upload timestamp;
non-target projects pass through the `map` unchanged. The
2xx-without-`data` branch (the source would prepend `undefined` and the
sort comparator would then throw) is collapsed as in `addProject`. -/
def addAppVersion (s : ContainerState) (projectId : String)
    (outcome : FetchOutcome AppVersion) : ContainerState × Option AppVersion :=
  match runFetch outcome with
  | Except.ok apiResponse =>
    match apiResponse.data with
    | some newVersion =>
      ({ s with projects := s.projects.map
                  (fun p =>
                    if p._id = projectId then
                      { p with versions := sortVersionsDesc (newVersion :: p.versions) }
                    else p),
                error := none, loading := false },
       some newVersion)
    | none =>
      ({ s with error := none, loading := false }, none)
  | Except.error m =>
    ({ s with error := some (jsOr m "Failed to add app version."), loading := false }, none)

/-- Operation `deleteAppVersion` (lines 232–263): the body is ignored beyond the
success check; on success filter the identified version out of the target
project's `versions`. -/
def deleteAppVersion (s : ContainerState) (projectId versionId : String)
    (outcome : FetchOutcome Unit) : ContainerState × Bool :=
  match runFetch outcome with
  | Except.ok _ =>
    ({ s with projects := s.projects.map
                (fun p =>
                  if p._id = projectId then
                    { p with versions := p.versions.filter (fun v => v._id ≠ versionId) }
                  else p),
              error := none, loading := false },
     true)
  | Except.error m =>
    ({ s with error := some (jsOr m "Failed to delete app version."), loading := false },
     false)

/-- Operation `updateVersionEnvironments` (lines 265–304): the request carries the
complete desired set `activeEnvironments` (unused by the cache
reconciliation, which trusts the response); on success replace the one
version whose `_id` matches `versionId` inside the matching project with
the server-returned record. The 2xx-without-`data` branch (the source
would store `undefined`) is collapsed as in `addProject`. -/
def updateVersionEnvironments (s : ContainerState) (projectId versionId : String)
    (activeEnvironments : List DeploymentEnvironment)
    (outcome : FetchOutcome AppVersion) : ContainerState × Option AppVersion :=
  match runFetch outcome with
  | Except.ok apiResponse =>
    match apiResponse.data with
    | some updatedVersion =>
      ({ s with projects := s.projects.map
                  (fun p =>
                    if p._id = projectId then
                      { p with versions :=
                          (p.versions.map
                            (fun v => if v._id = versionId then updatedVersion else v)) }
                    else p),
                error := none, loading := false },
       some updatedVersion)
    | none =>
      ({ s with error := none, loading := false }, none)
  | Except.error m =>
    ({ s with error := some (jsOr m "Failed to update version environments."),
              loading := false },
     none)

/-! ## The generative-text wrapper (`src/services/geminiService.ts`) -/

/-- JavaScript falsiness of `process.env.API_KEY`: absent or empty. -/
def jsFalsyKey (apiKey : Option String) : Bool :=
  match apiKey with
  | none => true
  | some s => s = ""

/-- The fixed message `generateReleaseNotes` returns when no API key is
configured (geminiService.ts line 33). -/
def releaseNotesUnavailableMsg : String :=
  "AI-generated release notes are unavailable. Please provide an API_KEY or write them manually."

/-- Function `generateReleaseNotes` (geminiService.ts lines 29–52): with a falsy
API key, return the fixed fallback string; otherwise issue the API call
(`apiCall` is its outcome) and return its text, re-raising a call failure
wrapped as `Failed to generate content: …`. -/
def generateReleaseNotes (apiKey : Option String) (apiCall : Except String String) :
    Except String String :=
  if jsFalsyKey apiKey then
    Except.ok releaseNotesUnavailableMsg
  else
    match apiCall with
    | Except.ok text => Except.ok text
    | Except.error e => Except.error ("Failed to generate content: " ++ e)

/-! ## The environment-toggle handler (`src/pages/ProjectDetailsPage.tsx`) -/

/-- Handler `toggleVersionEnvironment` (ProjectDetailsPage.tsx lines 212–268),
reduced to the single container request it issues: the triple
`(project._id, versionId, newActiveEnvironments)` passed to
`updateVersionEnvironments`, or `none` when the target version is absent
and the handler returns early. In the activation branch the source also
computes `updatedVersionsForProject` — every other version of the same
platform with the environment filtered out — but that value is never used:
no removal request is issued for the peers, mirrored here by the unused
binding. -/
def toggleVersionEnvironment (project : Project) (versionId : String)
    (environment : DeploymentEnvironment) :
    Option (String × String × List DeploymentEnvironment) :=
  match project.versions.find? (fun v => v._id = versionId) with
  | none => none
  | some targetVersion =>
    let newActiveEnvironments : List DeploymentEnvironment :=
      if environment ∈ targetVersion.activeEnvironments then
        targetVersion.activeEnvironments.filter (fun e => e ≠ environment)
      else
        let updatedVersionsForProject : List AppVersion :=
          project.versions.map
            (fun v =>
              if v.platform = targetVersion.platform ∧ v._id ≠ versionId then
                { v with activeEnvironments :=
                    v.activeEnvironments.filter (fun e => e ≠ environment) }
              else v)
        let _ := updatedVersionsForProject
        targetVersion.activeEnvironments ++ [environment]
    some (project._id, versionId, newActiveEnvironments)

/-- The stored version record for `(projectId, versionId)` in the cache:
the lens through which the scenario theorems read the post-state. -/
def getVersion (s : ContainerState) (projectId versionId : String) :
    Option AppVersion :=
  (getProjectById s projectId).bind
    (fun p => p.versions.find? (fun v => v._id = versionId))

/-! ## Concrete fixtures for witnesses and scenario theorems -/

/-- A concrete `AppVersion` with the given identity, upload time and active
environments; the remaining fields are fixed placeholders. -/
def demoVersion (i : String) (d : Nat) (envs : List DeploymentEnvironment) :
    AppVersion :=
  { _id := i, platform := Platform.Android, versionName := "1.0.0",
    buildNumber := "1", fileName := "app.apk", fileSize := "1 MB",
    uploadDate := d, releaseNotes := none, downloadUrl := "http://x/dl",
    qrCodeValue := "http://x/dl", filePath := "uploads/app.apk",
    activeEnvironments := envs }

/-- A concrete `Project` with the given identity and versions. -/
def demoProject (i : String) (vs : List AppVersion) : Project :=
  { _id := i, name := "Demo", description := none, createdAt := 0,
    platforms := [Platform.Android], versions := vs }

/-- A concrete container state holding the given projects. -/
def demoState (ps : List Project) : ContainerState :=
  { projects := ps, loading := false, error := none }

/-! ## Helper lemmas -/

/-- A keyed `map` update whose key matches no element of the list is the
identity — the shape shared by every per-project cache reconciliation. -/
theorem map_keyed_update_id (l : List Project) (g : Project → Project)
    (pid : String) (h : ∀ p ∈ l, p._id ≠ pid) :
    l.map (fun p => if p._id = pid then g p else p) = l := by
  induction l with
  | nil => rfl
  | cons a t ih =>
    simp only [List.map_cons]
    rw [if_neg (h a (List.mem_cons_self a t)),
      ih (fun p hp => h p (List.mem_cons_of_mem a hp))]

/-- The failure message every `catch` stores is never empty: the fallback
text is non-empty and a non-empty thrown message passes through. -/
theorem jsOr_ne_empty (m d : String) (hd : d ≠ "") : jsOr m d ≠ "" := by
  unfold jsOr
  split
  · exact hd
  · assumption

/-- Inserting an element no later than every element of the list (in the
descending order) puts it at the head. -/
theorem orderedInsert_eq_cons_of_max {v : AppVersion} {l : List AppVersion}
    (h : ∀ w ∈ l, byUploadDesc v w) :
    List.orderedInsert byUploadDesc v l = v :: l := by
  cases l with
  | nil => rfl
  | cons a t =>
    simp only [List.orderedInsert]
    rw [if_pos (h a (List.mem_cons_self a t))]

/-- Sorting a list headed by an element of maximal upload time keeps it at
the head and sorts the tail. -/
theorem sortVersionsDesc_cons_of_max {v : AppVersion} {l : List AppVersion}
    (h : ∀ w ∈ l, w.uploadDate ≤ v.uploadDate) :
    sortVersionsDesc (v :: l) = v :: sortVersionsDesc l := by
  unfold sortVersionsDesc
  rw [show List.insertionSort byUploadDesc (v :: l) =
      List.orderedInsert byUploadDesc v (List.insertionSort byUploadDesc l) from rfl]
  exact orderedInsert_eq_cons_of_max
    (fun w hw => h w ((List.perm_insertionSort byUploadDesc l).mem_iff.mp hw))

/-! ## Claim theorems -/

/-- C6: after a successful `fetchProjects` whose parsed body carries the
server list `l`, the cache equals `l` exactly, in server order, with the
error field clear — the container neither re-sorts, filters nor merges. -/
theorem C6_fetchProjects_success_exact (s : ContainerState) (l : List Project)
    (status : Nat) (message : Option String) :
    fetchProjects s (Except.ok ⟨true, status, Except.ok ⟨some l, message⟩⟩) =
      { projects := l, loading := false, error := none } :=
  rfl

/-- C10: a 2xx `fetchProjects` response whose parsed body lacks a `data`
field is treated as a success: the cache becomes the empty list and the
error field stays clear, rather than a malformed-response failure. -/
theorem C10_fetchProjects_absent_data_is_success (s : ContainerState)
    (status : Nat) (message : Option String) :
    fetchProjects s (Except.ok ⟨true, status, Except.ok ⟨none, message⟩⟩) =
      { projects := [], loading := false, error := none } :=
  rfl

/-- C8: `getProjectById` is a pure lookup over the cache — it is
deterministic (two calls without an intervening mutation agree), depends
only on the `projects` collection, and returns the absent sentinel when no
cached project carries the identifier. -/
theorem C8_getProjectById_pure_lookup (s t : ContainerState) (projectId : String) :
    getProjectById s projectId = getProjectById s projectId ∧
    (s.projects = t.projects → getProjectById s projectId = getProjectById t projectId) ∧
    ((∀ p ∈ s.projects, p._id ≠ projectId) → getProjectById s projectId = none) := by
  refine ⟨rfl, ?_, ?_⟩
  · intro h
    unfold getProjectById
    rw [h]
  · intro h
    unfold getProjectById
    rw [List.find?_eq_none]
    intro p hp
    simpa using h p hp

/-- Witness for C8 at a concrete cache that does not hold the identifier. -/
theorem C8_getProjectById_witness :
    getProjectById (demoState [demoProject "p2" []]) "p1" = none :=
  (C8_getProjectById_pure_lookup (demoState [demoProject "p2" []])
      (demoState [demoProject "p2" []]) "p1").2.2 (by decide)

/-- C2 counterexample: with an API key configured, a failing API request is
propagated to the caller as a raised error — not reduced to a placeholder
string as the claim states. -/
theorem C2_request_failure_raises :
    generateReleaseNotes (some "configured-key") (Except.error "network down") =
      Except.error "Failed to generate content: network down" :=
  rfl

/-- C2 (amended): a missing or empty API key yields the fixed placeholder
string, and a successful request yields its text; but a failing request is
re-raised to the caller, wrapped as `Failed to generate content: …`,
rather than yielding a placeholder. -/
theorem C2_amended_degradation (apiKey : Option String)
    (apiCall : Except String String) :
    (jsFalsyKey apiKey = true →
      generateReleaseNotes apiKey apiCall = Except.ok releaseNotesUnavailableMsg) ∧
    (jsFalsyKey apiKey = false →
      (∀ t, apiCall = Except.ok t →
        generateReleaseNotes apiKey apiCall = Except.ok t) ∧
      (∀ e, apiCall = Except.error e →
        generateReleaseNotes apiKey apiCall =
          Except.error ("Failed to generate content: " ++ e))) := by
  constructor
  · intro h
    unfold generateReleaseNotes
    rw [if_pos h]
  · intro h
    constructor
    · intro t ht
      unfold generateReleaseNotes
      rw [if_neg (by simp [h]), ht]
    · intro e he
      unfold generateReleaseNotes
      rw [if_neg (by simp [h]), he]

/-- Witness for the amended C2 at concrete inputs: the missing-key fallback
and the wrapped re-raise. -/
theorem C2_amended_witness :
    generateReleaseNotes none (Except.ok "notes") =
        Except.ok releaseNotesUnavailableMsg ∧
    generateReleaseNotes (some "k") (Except.error "down") =
        Except.error ("Failed to generate content: " ++ "down") :=
  ⟨(C2_amended_degradation none (Except.ok "notes")).1 rfl,
   ((C2_amended_degradation (some "k") (Except.error "down")).2 rfl).2 "down" rfl⟩

/-- C7: a successful `deleteProject` removes every cached project with the
given identity, retains every other project unchanged and in order (the
result is the identity-filtered cache, a sublist of the original), and
returns `true`; on failure it returns `false`. -/
theorem C7_deleteProject_removes_by_identity (s : ContainerState)
    (projectId : String) (status : Nat) (body : ApiBody Unit) (m : String) :
    ((deleteProject s projectId (Except.ok ⟨true, status, Except.ok body⟩)).2 = true
     ∧ (deleteProject s projectId (Except.ok ⟨true, status, Except.ok body⟩)).1.projects
        = s.projects.filter (fun p => p._id ≠ projectId)
     ∧ (∀ p ∈ (deleteProject s projectId
          (Except.ok ⟨true, status, Except.ok body⟩)).1.projects, p._id ≠ projectId)
     ∧ List.Sublist (deleteProject s projectId
          (Except.ok ⟨true, status, Except.ok body⟩)).1.projects s.projects
     ∧ (∀ p ∈ s.projects, p._id ≠ projectId →
          p ∈ (deleteProject s projectId
            (Except.ok ⟨true, status, Except.ok body⟩)).1.projects))
    ∧ (deleteProject s projectId (Except.error m)).2 = false := by
  refine ⟨⟨rfl, rfl, ?_, ?_, ?_⟩, rfl⟩
  · intro p hp
    have := List.of_mem_filter hp
    simpa using this
  · exact List.filter_sublist s.projects
  · intro p hp hne
    exact List.mem_filter.mpr ⟨hp, by simpa using hne⟩

/-- Witness for C7 on a two-project cache: the matching project goes, the
other survives, and the returns are `true` on success, `false` on failure. -/
theorem C7_deleteProject_witness :
    (deleteProject (demoState [demoProject "p1" [], demoProject "p2" []]) "p1"
        (Except.ok ⟨true, 200, Except.ok ⟨none, none⟩⟩)).2 = true ∧
    demoProject "p2" [] ∈ (deleteProject
        (demoState [demoProject "p1" [], demoProject "p2" []]) "p1"
        (Except.ok ⟨true, 200, Except.ok ⟨none, none⟩⟩)).1.projects ∧
    (deleteProject (demoState [demoProject "p1" [], demoProject "p2" []]) "p1"
        (Except.error "boom")).2 = false := by
  refine ⟨(C7_deleteProject_removes_by_identity
      (demoState [demoProject "p1" [], demoProject "p2" []])
      "p1" 200 ⟨none, none⟩ "boom").1.1,
    ?_,
    (C7_deleteProject_removes_by_identity
      (demoState [demoProject "p1" [], demoProject "p2" []])
      "p1" 200 ⟨none, none⟩ "boom").2⟩
  exact (C7_deleteProject_removes_by_identity
      (demoState [demoProject "p1" [], demoProject "p2" []])
      "p1" 200 ⟨none, none⟩ "boom").1.2.2.2.2
    (demoProject "p2" []) (by simp [demoState]) (by decide)

/-- C9: when the server reports success but no cached project carries the
given identifier, the version-level operations still report success — the
server-returned version for `addAppVersion` and `updateVersionEnvironments`,
`true` for `deleteAppVersion` — while the cached projects collection is left
entirely unchanged. -/
theorem C9_success_reaches_no_cached_project (s : ContainerState)
    (projectId versionId : String) (status : Nat) (v u : AppVersion)
    (msg : Option String) (bodyU : ApiBody Unit)
    (envs : List DeploymentEnvironment)
    (habs : ∀ p ∈ s.projects, p._id ≠ projectId) :
    ((addAppVersion s projectId
        (Except.ok ⟨true, status, Except.ok ⟨some v, msg⟩⟩)).2 = some v
     ∧ (addAppVersion s projectId
        (Except.ok ⟨true, status, Except.ok ⟨some v, msg⟩⟩)).1.projects = s.projects)
    ∧ ((deleteAppVersion s projectId versionId
        (Except.ok ⟨true, status, Except.ok bodyU⟩)).2 = true
     ∧ (deleteAppVersion s projectId versionId
        (Except.ok ⟨true, status, Except.ok bodyU⟩)).1.projects = s.projects)
    ∧ ((updateVersionEnvironments s projectId versionId envs
        (Except.ok ⟨true, status, Except.ok ⟨some u, msg⟩⟩)).2 = some u
     ∧ (updateVersionEnvironments s projectId versionId envs
        (Except.ok ⟨true, status, Except.ok ⟨some u, msg⟩⟩)).1.projects = s.projects) := by
  refine ⟨⟨rfl, ?_⟩, ⟨rfl, ?_⟩, ⟨rfl, ?_⟩⟩
  · exact map_keyed_update_id s.projects
      (fun p => { p with versions := sortVersionsDesc (v :: p.versions) })
      projectId habs
  · exact map_keyed_update_id s.projects
      (fun p => { p with versions := p.versions.filter (fun w => w._id ≠ versionId) })
      projectId habs
  · exact map_keyed_update_id s.projects
      (fun p => { p with versions :=
        (p.versions.map (fun w => if w._id = versionId then u else w)) })
      projectId habs

/-- Witness for C9 on a cache holding only an unrelated project. -/
theorem C9_witness :
    (addAppVersion (demoState [demoProject "p2" []]) "p1"
        (Except.ok ⟨true, 200, Except.ok ⟨some (demoVersion "v" 5 []), none⟩⟩)).2
      = some (demoVersion "v" 5 []) ∧
    (addAppVersion (demoState [demoProject "p2" []]) "p1"
        (Except.ok ⟨true, 200, Except.ok ⟨some (demoVersion "v" 5 []), none⟩⟩)).1.projects
      = [demoProject "p2" []] ∧
    (deleteAppVersion (demoState [demoProject "p2" []]) "p1" "v1"
        (Except.ok ⟨true, 200, Except.ok ⟨none, none⟩⟩)).2 = true := by
  have h := C9_success_reaches_no_cached_project (demoState [demoProject "p2" []])
    "p1" "v1" 200 (demoVersion "v" 5 []) (demoVersion "v" 5 []) none ⟨none, none⟩ []
    (by decide)
  exact ⟨h.1.1, h.1.2, h.2.1.1⟩

/-- The failure hypothesis used by the C4 theorem captures exactly the three
failing kinds of the error taxonomy: transport rejection, response-body
decode failure, and a non-2xx status. -/
theorem runFetch_error_characterization (α : Type) (o : FetchOutcome α) :
    (∃ m, runFetch o = Except.error m) ↔
      ((∃ m, o = Except.error m) ∨
       (∃ r, o = Except.ok r ∧ (∃ m, r.json = Except.error m)) ∨
       (∃ r, o = Except.ok r ∧ r.ok = false)) := by
  match o with
  | Except.error m =>
    simp [runFetch]
  | Except.ok r =>
    match hr : r.json with
    | Except.error m =>
      simp only [runFetch, handleApiResponse, hr]
      exact ⟨fun _ => Or.inr (Or.inl ⟨r, rfl, m, hr⟩), fun _ => ⟨m, rfl⟩⟩
    | Except.ok data =>
      match hok : r.ok with
      | true =>
        simp only [runFetch, handleApiResponse, hr, hok]
        constructor
        · rintro ⟨m, hm⟩
          cases hm
        · rintro (⟨m, hm⟩ | ⟨q, hq, m, hm⟩ | ⟨q, hq, hq2⟩)
          · cases hm
          · cases hq
            rw [hr] at hm
            cases hm
          · cases hq
            rw [hok] at hq2
            cases hq2
      | false =>
        simp only [runFetch, handleApiResponse, hr, hok]
        exact ⟨fun _ => Or.inr (Or.inr ⟨r, rfl, hok⟩), fun _ => ⟨_, rfl⟩⟩

/-- C4: every container operation, on every failing outcome (transport
failure, body-decode failure or non-2xx status — exactly the cases of the
`runFetch … = error` hypothesis, by `runFetch_error_characterization`),
leaves the cached projects unchanged — except `fetchProjects`, which
empties them — stores a non-empty error string, and signals failure through
a falsy/null return value. -/
theorem C4_failure_behavior (s : ContainerState)
    (projectId versionId : String) (envs : List DeploymentEnvironment)
    (o₁ : FetchOutcome (List Project)) (o₂ o₄ : FetchOutcome Project)
    (o₃ o₆ : FetchOutcome Unit) (o₅ o₇ : FetchOutcome AppVersion)
    (m₁ m₂ m₃ m₄ m₅ m₆ m₇ : String)
    (h₁ : runFetch o₁ = Except.error m₁) (h₂ : runFetch o₂ = Except.error m₂)
    (h₃ : runFetch o₃ = Except.error m₃) (h₄ : runFetch o₄ = Except.error m₄)
    (h₅ : runFetch o₅ = Except.error m₅) (h₆ : runFetch o₆ = Except.error m₆)
    (h₇ : runFetch o₇ = Except.error m₇) :
    ((fetchProjects s o₁).projects = [] ∧
     (fetchProjects s o₁).error = some (jsOr m₁ "Failed to fetch projects.") ∧
     jsOr m₁ "Failed to fetch projects." ≠ "") ∧
    ((addProject s o₂).1.projects = s.projects ∧
     (addProject s o₂).1.error = some (jsOr m₂ "Failed to add project.") ∧
     jsOr m₂ "Failed to add project." ≠ "" ∧
     (addProject s o₂).2 = none) ∧
    ((deleteProject s projectId o₃).1.projects = s.projects ∧
     (deleteProject s projectId o₃).1.error
        = some (jsOr m₃ "Failed to delete project.") ∧
     jsOr m₃ "Failed to delete project." ≠ "" ∧
     (deleteProject s projectId o₃).2 = false) ∧
    ((updateProjectDetails s projectId o₄).1.projects = s.projects ∧
     (updateProjectDetails s projectId o₄).1.error
        = some (jsOr m₄ "Failed to update project.") ∧
     jsOr m₄ "Failed to update project." ≠ "" ∧
     (updateProjectDetails s projectId o₄).2 = none) ∧
    ((addAppVersion s projectId o₅).1.projects = s.projects ∧
     (addAppVersion s projectId o₅).1.error
        = some (jsOr m₅ "Failed to add app version.") ∧
     jsOr m₅ "Failed to add app version." ≠ "" ∧
     (addAppVersion s projectId o₅).2 = none) ∧
    ((deleteAppVersion s projectId versionId o₆).1.projects = s.projects ∧
     (deleteAppVersion s projectId versionId o₆).1.error
        = some (jsOr m₆ "Failed to delete app version.") ∧
     jsOr m₆ "Failed to delete app version." ≠ "" ∧
     (deleteAppVersion s projectId versionId o₆).2 = false) ∧
    ((updateVersionEnvironments s projectId versionId envs o₇).1.projects
        = s.projects ∧
     (updateVersionEnvironments s projectId versionId envs o₇).1.error
        = some (jsOr m₇ "Failed to update version environments.") ∧
     jsOr m₇ "Failed to update version environments." ≠ "" ∧
     (updateVersionEnvironments s projectId versionId envs o₇).2 = none) := by
  refine ⟨?_, ?_, ?_, ?_, ?_, ?_, ?_⟩
  · unfold fetchProjects
    rw [h₁]
    exact ⟨rfl, rfl, jsOr_ne_empty _ _ (by decide)⟩
  · unfold addProject
    rw [h₂]
    exact ⟨rfl, rfl, jsOr_ne_empty _ _ (by decide), rfl⟩
  · unfold deleteProject
    rw [h₃]
    exact ⟨rfl, rfl, jsOr_ne_empty _ _ (by decide), rfl⟩
  · unfold updateProjectDetails
    rw [h₄]
    exact ⟨rfl, rfl, jsOr_ne_empty _ _ (by decide), rfl⟩
  · unfold addAppVersion
    rw [h₅]
    exact ⟨rfl, rfl, jsOr_ne_empty _ _ (by decide), rfl⟩
  · unfold deleteAppVersion
    rw [h₆]
    exact ⟨rfl, rfl, jsOr_ne_empty _ _ (by decide), rfl⟩
  · unfold updateVersionEnvironments
    rw [h₇]
    exact ⟨rfl, rfl, jsOr_ne_empty _ _ (by decide), rfl⟩

/-- Witness for C4: a transport rejection on every operation at a concrete
state, with the falsy returns and the emptied/unchanged cache visible. -/
theorem C4_failure_witness :
    (fetchProjects (demoState [demoProject "p2" []]) (Except.error "boom")).projects
      = [] ∧
    (addProject (demoState [demoProject "p2" []]) (Except.error "boom")).1.projects
      = [demoProject "p2" []] ∧
    (addProject (demoState [demoProject "p2" []]) (Except.error "boom")).2 = none ∧
    (deleteProject (demoState [demoProject "p2" []]) "p1" (Except.error "boom")).2
      = false ∧
    (updateProjectDetails (demoState [demoProject "p2" []]) "p1"
        (Except.error "boom")).2 = none ∧
    (addAppVersion (demoState [demoProject "p2" []]) "p1" (Except.error "boom")).2
      = none ∧
    (deleteAppVersion (demoState [demoProject "p2" []]) "p1" "v1"
        (Except.error "boom")).2 = false ∧
    (updateVersionEnvironments (demoState [demoProject "p2" []]) "p1" "v1" []
        (Except.error "boom")).2 = none := by
  have h := C4_failure_behavior (demoState [demoProject "p2" []]) "p1" "v1" []
    (Except.error "boom") (Except.error "boom") (Except.error "boom")
    (Except.error "boom") (Except.error "boom") (Except.error "boom")
    (Except.error "boom") "boom" "boom" "boom" "boom" "boom" "boom" "boom"
    rfl rfl rfl rfl rfl rfl rfl
  exact ⟨h.1.1, h.2.1.1, h.2.1.2.2.2, h.2.2.1.2.2.2, h.2.2.2.1.2.2.2,
    h.2.2.2.2.1.2.2.2, h.2.2.2.2.2.1.2.2.2, h.2.2.2.2.2.2.2.2.2⟩

/-- C5: after a successful `updateVersionEnvironments`, the target version's
stored record is exactly the server-returned one — so its stored
active-environment set equals the server-confirmed set — while every other
version (in the target project or in any other project) and every other
field of every cached project is unaltered; the server-returned version is
also the return value. -/
theorem C5_updateVersionEnvironments_exact_frame (s : ContainerState)
    (projectId versionId : String) (envs : List DeploymentEnvironment)
    (u : AppVersion) (status : Nat) (msg : Option String)
    (U : ContainerState × Option AppVersion)
    (hU : U = updateVersionEnvironments s projectId versionId envs
      (Except.ok ⟨true, status, Except.ok ⟨some u, msg⟩⟩)) :
    U.2 = some u ∧
    U.1.projects.length = s.projects.length ∧
    (∀ (i : Nat) (p : Project), s.projects[i]? = some p → p._id ≠ projectId →
      U.1.projects[i]? = some p) ∧
    (∀ (i : Nat) (p : Project), s.projects[i]? = some p → p._id = projectId →
      ∃ q, U.1.projects[i]? = some q ∧
        q._id = p._id ∧ q.name = p.name ∧ q.description = p.description ∧
        q.createdAt = p.createdAt ∧ q.platforms = p.platforms ∧
        q.versions.length = p.versions.length ∧
        (∀ (j : Nat) (w : AppVersion), p.versions[j]? = some w → w._id ≠ versionId →
          q.versions[j]? = some w) ∧
        (∀ (j : Nat) (w : AppVersion), p.versions[j]? = some w → w._id = versionId →
          q.versions[j]? = some u)) := by
  subst hU
  refine ⟨rfl, ?_, ?_, ?_⟩
  · exact List.length_map _ _
  · intro i p hp hne
    show (s.projects.map _)[i]? = some p
    rw [List.getElem?_map, hp]
    simp [hne]
  · intro i p hp hpe
    refine ⟨{ p with versions :=
        (p.versions.map (fun w => if w._id = versionId then u else w)) },
      ?_, rfl, rfl, rfl, rfl, rfl, List.length_map _ _, ?_, ?_⟩
    · show (s.projects.map _)[i]? = _
      rw [List.getElem?_map, hp]
      simp [hpe]
    · intro j w hw hwne
      show (p.versions.map _)[j]? = some w
      rw [List.getElem?_map, hw]
      simp [hwne]
    · intro j w hw hwe
      show (p.versions.map _)[j]? = some u
      rw [List.getElem?_map, hw]
      simp [hwe]

/-- Witness for C5: a two-version project; the Staging activation of `v2`
is stored exactly, `v1` keeps its record, and the returned value is the
server-returned version. -/
theorem C5_witness :
    (updateVersionEnvironments
        (demoState [demoProject "p1" [demoVersion "v1" 10 [], demoVersion "v2" 5 []]])
        "p1" "v2" [DeploymentEnvironment.Staging]
        (Except.ok ⟨true, 200, Except.ok
          ⟨some (demoVersion "v2" 5 [DeploymentEnvironment.Staging]), none⟩⟩)).2
      = some (demoVersion "v2" 5 [DeploymentEnvironment.Staging]) ∧
    (updateVersionEnvironments
        (demoState [demoProject "p1" [demoVersion "v1" 10 [], demoVersion "v2" 5 []]])
        "p1" "v2" [DeploymentEnvironment.Staging]
        (Except.ok ⟨true, 200, Except.ok
          ⟨some (demoVersion "v2" 5 [DeploymentEnvironment.Staging]), none⟩⟩)).1.projects.length
      = 1 := by
  have h := C5_updateVersionEnvironments_exact_frame
    (demoState [demoProject "p1" [demoVersion "v1" 10 [], demoVersion "v2" 5 []]])
    "p1" "v2" [DeploymentEnvironment.Staging]
    (demoVersion "v2" 5 [DeploymentEnvironment.Staging]) 200 none _ rfl
  exact ⟨h.1, h.2.1.trans rfl⟩

/-- C3: after a successful `addAppVersion` whose returned version's upload
timestamp is at least that of every version already cached for the target
project, that project's collection holds the new version as its first
entry, the pre-existing entries after it (a permutation of the old
collection) with the whole collection in descending upload order; other
projects pass through untouched; the new version is the return value. On
any failing outcome the return is the null sentinel. -/
theorem C3_addAppVersion_prepends_and_sorts (s : ContainerState)
    (projectId : String) (v : AppVersion) (status : Nat) (msg : Option String)
    (A : ContainerState × Option AppVersion)
    (hA : A = addAppVersion s projectId
      (Except.ok ⟨true, status, Except.ok ⟨some v, msg⟩⟩))
    (hmax : ∀ p ∈ s.projects, p._id = projectId →
      ∀ w ∈ p.versions, w.uploadDate ≤ v.uploadDate) :
    A.2 = some v ∧
    A.1.projects.length = s.projects.length ∧
    (∀ (i : Nat) (p : Project), s.projects[i]? = some p → p._id ≠ projectId →
      A.1.projects[i]? = some p) ∧
    (∀ (i : Nat) (p : Project), s.projects[i]? = some p → p._id = projectId →
      ∃ q, A.1.projects[i]? = some q ∧
        q.versions.head? = some v ∧
        q.versions.tail.Perm p.versions ∧
        List.Sorted byUploadDesc q.versions) ∧
    (∀ (o : FetchOutcome AppVersion) (m : String),
      runFetch o = Except.error m → (addAppVersion s projectId o).2 = none) := by
  subst hA
  refine ⟨rfl, List.length_map _ _, ?_, ?_, ?_⟩
  · intro i p hp hne
    show (s.projects.map _)[i]? = some p
    rw [List.getElem?_map, hp]
    simp [hne]
  · intro i p hp hpe
    have hpm : p ∈ s.projects := List.getElem?_mem hp
    have hm : ∀ w ∈ p.versions, w.uploadDate ≤ v.uploadDate := hmax p hpm hpe
    have key : sortVersionsDesc (v :: p.versions) = v :: sortVersionsDesc p.versions :=
      sortVersionsDesc_cons_of_max hm
    refine ⟨{ p with versions := sortVersionsDesc (v :: p.versions) }, ?_, ?_, ?_, ?_⟩
    · show (s.projects.map _)[i]? = _
      rw [List.getElem?_map, hp]
      simp [hpe]
    · rw [key]
      rfl
    · rw [key]
      exact List.perm_insertionSort byUploadDesc p.versions
    · rw [key]
      refine List.sorted_cons.mpr ⟨?_, ?_⟩
      · intro b hb
        exact hm b ((List.perm_insertionSort byUploadDesc p.versions).mem_iff.mp hb)
      · exact List.sorted_insertionSort byUploadDesc p.versions
  · intro o m h
    unfold addAppVersion
    rw [h]

/-- Witness for C3: adding a freshest version to a project already holding
two versions; the return value is the new version and the cache keeps one
project. -/
theorem C3_witness :
    (addAppVersion
        (demoState [demoProject "p1" [demoVersion "v1" 10 [], demoVersion "v2" 5 []]])
        "p1"
        (Except.ok ⟨true, 200, Except.ok ⟨some (demoVersion "v3" 20 []), none⟩⟩)).2
      = some (demoVersion "v3" 20 []) ∧
    (addAppVersion
        (demoState [demoProject "p1" [demoVersion "v1" 10 [], demoVersion "v2" 5 []]])
        "p1"
        (Except.ok ⟨true, 200, Except.ok ⟨some (demoVersion "v3" 20 []), none⟩⟩)).1.projects.length
      = 1 := by
  have h := C3_addAppVersion_prepends_and_sorts
    (demoState [demoProject "p1" [demoVersion "v1" 10 [], demoVersion "v2" 5 []]])
    "p1" (demoVersion "v3" 20 []) 200 none _ rfl (by decide)
  exact ⟨h.1, h.2.1.trans rfl⟩

/-- The first Android version of the C1 scenario: active in Staging. -/
def c1V1 : AppVersion := demoVersion "v1" 10 [DeploymentEnvironment.Staging]

/-- The second Android version of the C1 scenario: active nowhere. -/
def c1V2 : AppVersion := demoVersion "v2" 20 []

/-- The C1 scenario project: Android versions `v1` (Staging) and `v2`. -/
def c1Project : Project := demoProject "p1" [c1V1, c1V2]

/-- C1: activating Staging on `v2` makes the handler issue exactly one
container request — the activation on `v2` with set `[Staging]`; the
peer-deactivation list it computes for the other same-platform versions is
discarded, no removal request is issued for `v1`, and the container's
reconciliation of the server's successful echo leaves `v1`'s record
untouched. Afterwards `v1` is still active in Staging alongside `v2`,
contradicting the claimed final state `v1.active = {}` (and the source's
own comment and tooltip, which announce the peer deactivation). -/
theorem C1_exclusive_activation_not_enforced :
    toggleVersionEnvironment c1Project "v2" DeploymentEnvironment.Staging =
      some ("p1", "v2", [DeploymentEnvironment.Staging]) ∧
    getVersion (updateVersionEnvironments (demoState [c1Project]) "p1" "v2"
        [DeploymentEnvironment.Staging]
        (Except.ok ⟨true, 200, Except.ok
          ⟨some (demoVersion "v2" 20 [DeploymentEnvironment.Staging]), none⟩⟩)).1
      "p1" "v1" = some c1V1 ∧
    c1V1.activeEnvironments = [DeploymentEnvironment.Staging] ∧
    getVersion (updateVersionEnvironments (demoState [c1Project]) "p1" "v2"
        [DeploymentEnvironment.Staging]
        (Except.ok ⟨true, 200, Except.ok
          ⟨some (demoVersion "v2" 20 [DeploymentEnvironment.Staging]), none⟩⟩)).1
      "p1" "v2" = some (demoVersion "v2" 20 [DeploymentEnvironment.Staging]) := by
  refine ⟨?_, ?_, rfl, ?_⟩ <;> decide

end OTA
